import Mathlib

/-!
Verification of the Eye_tracker desktop telemetry pipeline.

This file gives a shallow embedding of the state-bearing parts of the
repository (the blink detector in `desktop/eye_tracker.py`, the session
aggregation and alert logic in `desktop/main.py`, and the buffered
delivery client in `desktop/api_client.py`) and proves properties about
them.  Network calls are modelled by an oracle `ok : Nat -> Bool` giving
the outcome of the i-th HTTP request an invocation makes; the persisted
buffer file is modelled as an explicit value threaded through the
functions that read and write it; floating point quantities are modelled
as rationals.
-/

/-- One buffered session record, as built by `ApiClient.buffer_session`:
the dict with keys started_at, ended_at, blink_count, avg_cpu,
avg_memory_mb. -/
structure Row where
  started_at : String
  ended_at : String
  blink_count : Nat
  avg_cpu : ℚ
  avg_memory_mb : ℚ
deriving DecidableEq

/-- Result of one `ApiClient.sync_buffer` invocation: the returned count
`sent`, the buffer contents persisted when the invocation finishes
(`remaining`), and the number of HTTP POST requests the invocation made
(`calls`). -/
structure SyncResult where
  sent : Nat
  remaining : List Row
  calls : Nat
deriving DecidableEq

/-- The `for row in rows` loop of `ApiClient.sync_buffer`
(api_client.py lines 111-121): each row is POSTed once; on a 200 the
`sent` counter is incremented, on any other status or exception the row
is appended to `remaining`.  `ok i` is the outcome of the i-th request
(true = HTTP 200); `sent`, `remaining` and `calls` are the loop's
mutable accumulators. -/
def syncLoop (ok : Nat → Bool) : List Row → Nat → Nat → List Row → Nat → SyncResult
  | [], _, sent, remaining, calls => ⟨sent, remaining, calls⟩
  | row :: rest, i, sent, remaining, calls =>
    if ok i then
      syncLoop ok rest (i + 1) (sent + 1) remaining (calls + 1)
    else
      syncLoop ok rest (i + 1) sent (remaining ++ [row]) (calls + 1)

/-- `ApiClient.sync_buffer` (api_client.py lines 91-128).  With no token
it returns 0 before touching the network or the buffer file; with an
empty buffer it returns 0 with no network call; otherwise it runs the
delivery loop and persists `remaining` over the buffer file. -/
def syncBuffer (token : Option String) (rows : List Row) (ok : Nat → Bool) : SyncResult :=
  match token with
  | none => ⟨0, rows, 0⟩
  | some _ =>
    if rows.isEmpty then ⟨0, rows, 0⟩
    else syncLoop ok rows 0 0 [] 0

/-- Specification-side description of which rows a flush leaves behind:
the rows whose request (at their position `i`) failed, kept in buffer
order. -/
def failedRowsSpec (ok : Nat → Bool) : List Row → Nat → List Row
  | [], _ => []
  | row :: rest, i =>
    if ok i then failedRowsSpec ok rest (i + 1)
    else row :: failedRowsSpec ok rest (i + 1)

/-- Specification-side count of acknowledged (HTTP 200) requests among
`n` consecutive requests starting at index `i`. -/
def ackCount (ok : Nat → Bool) : Nat → Nat → Nat
  | 0, _ => 0
  | n + 1, i => (if ok i then 1 else 0) + ackCount ok n (i + 1)

lemma syncLoop_eq (ok : Nat → Bool) (rows : List Row) :
    ∀ i sent remaining calls,
      syncLoop ok rows i sent remaining calls =
        ⟨sent + ackCount ok rows.length i,
         remaining ++ failedRowsSpec ok rows i,
         calls + rows.length⟩ := by
  induction rows with
  | nil =>
    intro i sent remaining calls
    simp [syncLoop, ackCount, failedRowsSpec]
  | cons row rest ih =>
    intro i sent remaining calls
    by_cases h : ok i
    · simp only [syncLoop, h, if_true, ih, List.length_cons, ackCount, failedRowsSpec]
      simp only [SyncResult.mk.injEq]
      refine ⟨by omega, by simp, by omega⟩
    · simp only [syncLoop, h, if_false, ih, List.length_cons, ackCount, failedRowsSpec,
        Bool.false_eq_true]
      simp only [SyncResult.mk.injEq]
      refine ⟨by omega, by simp, by omega⟩

lemma failedRowsSpec_sublist (ok : Nat → Bool) (rows : List Row) :
    ∀ i, (failedRowsSpec ok rows i).Sublist rows := by
  induction rows with
  | nil => intro i; simp [failedRowsSpec]
  | cons row rest ih =>
    intro i
    by_cases h : ok i
    · simp only [failedRowsSpec, h, if_true]
      exact (ih (i + 1)).cons row
    · simp only [failedRowsSpec, h, Bool.false_eq_true, if_false]
      exact (ih (i + 1)).cons₂ row

lemma ack_add_failed_length (ok : Nat → Bool) (rows : List Row) :
    ∀ i, ackCount ok rows.length i + (failedRowsSpec ok rows i).length = rows.length := by
  induction rows with
  | nil => intro i; simp [ackCount, failedRowsSpec]
  | cons row rest ih =>
    intro i
    by_cases h : ok i <;>
      simp [ackCount, failedRowsSpec, h] <;>
      have := ih (i + 1) <;> omega

/-- Concrete sessions used in counterexamples. -/
def rowA : Row := ⟨"2024-01-01T09:00:00", "2024-01-01T09:30:00", 12, 17, 512⟩

def rowB : Row := ⟨"2024-01-01T10:00:00", "2024-01-01T10:30:00", 8, 20, 600⟩

def rowC : Row := ⟨"2024-01-01T11:00:00", "2024-01-01T11:30:00", 15, 25, 550⟩

/-- Collector that rejects the first request of the flush and accepts
every later one. -/
def failFirstOnly : Nat → Bool := fun i => decide (0 < i)

/-- C1 counterexample: with buffer [A, B, C] and delivery of A failing,
`sync_buffer` does NOT stop: it makes all three HTTP requests, delivers
B and C out of order, and persists only [A] — contradicting the claim
that B and C remain in the buffer and are not attempted in that flush. -/
theorem sync_flush_stop_on_failure_cex :
    syncBuffer (some "token") [rowA, rowB, rowC] failFirstOnly = ⟨2, [rowA], 3⟩ ∧
    ¬((syncBuffer (some "token") [rowA, rowB, rowC] failFirstOnly).remaining
          = [rowA, rowB, rowC] ∧
      (syncBuffer (some "token") [rowA, rowB, rowC] failFirstOnly).calls ≤ 1) := by
  constructor
  · rfl
  · intro h
    have h2 := h.2
    simp [syncBuffer, syncLoop, failFirstOnly] at h2

/-- C1 (amended): when a token is held, a flush attempts every buffered
session exactly once, in buffer order; a failed session remains in the
persisted buffer, and the retained sessions are exactly the failed ones
in their original relative order — but a failure does not stop the flush
from attempting (and possibly delivering) the sessions after it. -/
theorem sync_flush_attempts_all_retains_failed (t : String) (rows : List Row)
    (ok : Nat → Bool) :
    (syncBuffer (some t) rows ok).calls = rows.length ∧
    (syncBuffer (some t) rows ok).remaining = failedRowsSpec ok rows 0 := by
  cases rows with
  | nil => simp [syncBuffer, failedRowsSpec]
  | cons row rest =>
    simp only [syncBuffer, List.isEmpty_cons, if_false, Bool.false_eq_true]
    rw [syncLoop_eq]
    simp

/-- C2: no silent loss: after any `sync_buffer` invocation the persisted
buffer is an order-preserving sublist of the starting buffer, every
starting session is either acknowledged or still buffered
(sent + retained = initial size), and the returned count equals the
number of acknowledged requests among the calls actually made. -/
theorem sync_buffer_no_silent_loss (token : Option String) (rows : List Row)
    (ok : Nat → Bool) :
    (syncBuffer token rows ok).remaining.Sublist rows ∧
    (syncBuffer token rows ok).sent + (syncBuffer token rows ok).remaining.length
        = rows.length ∧
    (syncBuffer token rows ok).sent = ackCount ok (syncBuffer token rows ok).calls 0 := by
  match token with
  | none => simp [syncBuffer, ackCount]
  | some t =>
    cases rows with
    | nil => simp [syncBuffer, ackCount]
    | cons row rest =>
      simp only [syncBuffer, List.isEmpty_cons, if_false, Bool.false_eq_true]
      rw [syncLoop_eq]
      refine ⟨by simpa using failedRowsSpec_sublist ok (row :: rest) 0, ?_, by simp⟩
      simpa using ack_add_failed_length ok (row :: rest) 0

/-- C5: with no authentication token, `sync_buffer` makes zero network
calls, leaves the persisted buffer unchanged, and returns 0. -/
theorem sync_buffer_without_token_noop (rows : List Row) (ok : Nat → Bool) :
    syncBuffer none rows ok = ⟨0, rows, 0⟩ := rfl

/-- Internal detector state of `EyeTrackerWorker`
(eye_tracker.py lines 20, 28-30): the consecutive-closed-frame counter,
the previous frame's open/closed reading, and the running blink count. -/
structure DetectorState where
  closed_consec_frames : Nat
  eyes_were_open : Bool
  blink_count : Nat
deriving DecidableEq

/-- `self._closed_frames_threshold = 2` (eye_tracker.py line 29). -/
def closedFramesThreshold : Nat := 2

/-- Detector state after `EyeTrackerWorker.__init__`
(eye_tracker.py lines 20, 28-30): counter 0, eyes were open, 0 blinks. -/
def initDetector : DetectorState := ⟨0, true, 0⟩

/-- One iteration of the per-frame update in `EyeTrackerWorker.start`
(eye_tracker.py lines 65-81), given this frame's `eyes_open` reading.
Returns the new state and whether a blink event was emitted
(`blink_count_updated` fired) on this frame. -/
def observe (st : DetectorState) (eyesOpen : Bool) : DetectorState × Bool :=
  if eyesOpen = false then
    ({ st with closed_consec_frames := st.closed_consec_frames + 1,
               eyes_were_open := eyesOpen }, false)
  else
    if closedFramesThreshold ≤ st.closed_consec_frames ∧ st.eyes_were_open = false then
      ({ st with blink_count := st.blink_count + 1,
                 closed_consec_frames := 0,
                 eyes_were_open := eyesOpen }, true)
    else
      ({ st with closed_consec_frames := 0, eyes_were_open := eyesOpen }, false)

/-- Run the detector loop over a list of per-frame open/closed readings. -/
def run : DetectorState → List Bool → DetectorState
  | st, [] => st
  | st, b :: rest => run (observe st b).1 rest

/-- Per-frame emission trace of the detector loop: entry i is true iff a
blink event is emitted on frame i. -/
def runEmits : DetectorState → List Bool → List Bool
  | _, [] => []
  | st, b :: rest => (observe st b).2 :: runEmits (observe st b).1 rest

/-- Specification-side count (following the spec's words): the number of
open frames preceded by a maximal run of at least `closedFramesThreshold`
consecutive closed frames; the first argument is the length of the
closed run already in progress. -/
def specBlinkTransitions : Nat → List Bool → Nat
  | _, [] => 0
  | closedRun, false :: rest => specBlinkTransitions (closedRun + 1) rest
  | closedRun, true :: rest =>
    (if closedFramesThreshold ≤ closedRun then 1 else 0) + specBlinkTransitions 0 rest

lemma run_spec (frames : List Bool) :
    ∀ st : DetectorState,
      (1 ≤ st.closed_consec_frames → st.eyes_were_open = false) →
      (runEmits st frames).count true = specBlinkTransitions st.closed_consec_frames frames ∧
      (run st frames).blink_count
          = st.blink_count + specBlinkTransitions st.closed_consec_frames frames := by
  induction frames with
  | nil =>
    intro st _
    simp [runEmits, run, specBlinkTransitions]
  | cons b rest ih =>
    intro st hinv
    cases b
    · have hstep : observe st false
          = (⟨st.closed_consec_frames + 1, false, st.blink_count⟩, false) := by
        simp [observe]
      have h := ih ⟨st.closed_consec_frames + 1, false, st.blink_count⟩ (by intro; rfl)
      simp only [runEmits, run, hstep, specBlinkTransitions]
      refine ⟨?_, ?_⟩
      · simpa using h.1
      · simpa using h.2
    · by_cases hc : closedFramesThreshold ≤ st.closed_consec_frames
      · have hwo : st.eyes_were_open = false := by
          apply hinv
          have h1 : 1 ≤ closedFramesThreshold := by decide
          omega
        have hstep : observe st true = (⟨0, true, st.blink_count + 1⟩, true) := by
          simp [observe, hc, hwo]
        have h := ih ⟨0, true, st.blink_count + 1⟩ (by simp)
        simp only [runEmits, run, hstep, specBlinkTransitions, hc, if_true]
        refine ⟨?_, ?_⟩
        · show List.count true (true :: runEmits ⟨0, true, st.blink_count + 1⟩ rest)
              = 1 + specBlinkTransitions 0 rest
          have h1 : List.count true (runEmits ⟨0, true, st.blink_count + 1⟩ rest)
              = specBlinkTransitions 0 rest := h.1
          rw [List.count_cons_self, h1]
          omega
        · show (run ⟨0, true, st.blink_count + 1⟩ rest).blink_count
              = st.blink_count + (1 + specBlinkTransitions 0 rest)
          have h2 : (run ⟨0, true, st.blink_count + 1⟩ rest).blink_count
              = st.blink_count + 1 + specBlinkTransitions 0 rest := h.2
          omega
      · have hcond : ¬(closedFramesThreshold ≤ st.closed_consec_frames ∧
            st.eyes_were_open = false) := fun hx => hc hx.1
        have hstep : observe st true = (⟨0, true, st.blink_count⟩, false) := by
          simp [observe, hcond]
        have h := ih ⟨0, true, st.blink_count⟩ (by simp)
        simp only [runEmits, run, hstep, specBlinkTransitions, hc, if_false]
        refine ⟨?_, ?_⟩
        · simp only [List.count_cons]
          have h1 := h.1
          simp only at h1
          simp [h1]
        · have h2 := h.2
          simp only at h2
          omega

/-- C3: from the initial detector state, the number of emitted blink
events (and the final blink count) equals the number of closed-to-open
transitions preceded by at least `closedFramesThreshold` = 2 consecutive
closed frames; on [open, closed, closed, closed, open, open] exactly one
event is emitted, on the 5th frame, with final count 1; and a single
isolated closed frame yields no event. -/
theorem blink_count_matches_debounced_transitions :
    (∀ frames : List Bool,
      (runEmits initDetector frames).count true = specBlinkTransitions 0 frames ∧
      (run initDetector frames).blink_count = specBlinkTransitions 0 frames) ∧
    runEmits initDetector [true, false, false, false, true, true]
        = [false, false, false, false, true, false] ∧
    (run initDetector [true, false, false, false, true, true]).blink_count = 1 ∧
    runEmits initDetector [true, false, true] = [false, false, false] := by
    refine ⟨?_, by decide, by decide, by decide⟩
    intro frames
    simpa [initDetector] using run_spec frames initDetector (by intro h; simp [initDetector] at h)

/-- The per-session reset performed by `EyeTrackerWorker.start`
(eye_tracker.py line 37): only `_blink_count` is set to 0; the closed
frame counter and `_eyes_were_open` are left as they are. -/
def sessionStartReset (st : DetectorState) : DetectorState :=
  { st with blink_count := 0 }

/-- C4 counterexample: from the reachable state left by observing
[closed, closed], the session-start reset followed by a single open
frame yields blink count 1, while a fresh detector on the same frame
yields 0 — the reset does not zero `closed_consec_frames` or restore
`eyes_were_open`, so it is not equivalent to a fresh detector. -/
theorem session_reset_stale_state_cex :
    (run (sessionStartReset (run initDetector [false, false])) [true]).blink_count = 1 ∧
    (run initDetector [true]).blink_count = 0 ∧
    sessionStartReset (run initDetector [false, false]) ≠ initDetector ∧
    (sessionStartReset (run initDetector [false, false])).closed_consec_frames = 2 := by
  decide

/-- C4 (amended): the session-start reset zeroes only the blink count;
whenever the detector's closed-frame counter is 0 and its last reading
was open (in particular on a freshly constructed worker, which is what
`MainWindow.start_tracking` creates for each session), the reset
followed by any frame sequence gives the same blink count as a fresh
detector. -/
theorem session_reset_fresh_from_clear_state (st : DetectorState) (frames : List Bool)
    (h1 : st.closed_consec_frames = 0) (h2 : st.eyes_were_open = true) :
    (run (sessionStartReset st) frames).blink_count
        = (run initDetector frames).blink_count := by
  obtain ⟨c, wo, b⟩ := st
  simp only at h1 h2
  subst h1
  subst h2
  rfl

/-- Witness for C4's amended theorem at a concrete stale-count state and
frame sequence. -/
theorem session_reset_fresh_from_clear_state_witness :
    (⟨0, true, 5⟩ : DetectorState).closed_consec_frames = 0 ∧
    (⟨0, true, 5⟩ : DetectorState).eyes_were_open = true ∧
    (run (sessionStartReset ⟨0, true, 5⟩) [false, false, true]).blink_count
        = (run initDetector [false, false, true]).blink_count :=
  ⟨rfl, rfl, session_reset_fresh_from_clear_state ⟨0, true, 5⟩ [false, false, true] rfl rfl⟩

/-- The average computation in `MainWindow.stop_tracking`
(main.py lines 251-260): `sum(samples) / len(samples) if samples else
0.0`. -/
def avgOrZero (samples : List ℚ) : ℚ :=
  if samples.isEmpty then 0 else samples.sum / (samples.length : ℚ)

/-- The session record built by `MainWindow.stop_tracking`
(main.py lines 249-268) and passed to `ApiClient.buffer_session`. -/
def finalizeSessionRow (startedAt endedAt : String) (blinkCount : Nat)
    (cpuSamples memSamples : List ℚ) : Row :=
  { started_at := startedAt
    ended_at := endedAt
    blink_count := blinkCount
    avg_cpu := avgOrZero cpuSamples
    avg_memory_mb := avgOrZero memSamples }

/-- C6: a finalized session's avg_cpu and avg_memory_mb are the
arithmetic means of the collected resource samples, and both are exactly
0 when no samples were collected (the guard makes the computation total:
no division by an empty count is ever performed). -/
theorem finalize_session_averages (s e : String) (b : Nat) (cpus mems : List ℚ) :
    (cpus = [] → (finalizeSessionRow s e b cpus mems).avg_cpu = 0) ∧
    (cpus ≠ [] →
      (finalizeSessionRow s e b cpus mems).avg_cpu = cpus.sum / (cpus.length : ℚ)) ∧
    (mems = [] → (finalizeSessionRow s e b cpus mems).avg_memory_mb = 0) ∧
    (mems ≠ [] →
      (finalizeSessionRow s e b cpus mems).avg_memory_mb = mems.sum / (mems.length : ℚ)) := by
  refine ⟨?_, ?_, ?_, ?_⟩ <;> intro h <;>
    simp [finalizeSessionRow, avgOrZero, List.isEmpty_iff, h]

/-- Witness for C6 at a concrete finalization: zero CPU samples give
average 0, memory samples [1, 3] give average 2. -/
theorem finalize_session_averages_witness :
    (finalizeSessionRow "a" "b" 3 [] [1, 3]).avg_cpu = 0 ∧
    (finalizeSessionRow "a" "b" 3 [] [1, 3]).avg_memory_mb
        = ([(1 : ℚ), 3].sum / (([(1 : ℚ), 3].length : Nat) : ℚ)) :=
  ⟨(finalize_session_averages "a" "b" 3 [] [1, 3]).1 rfl,
   (finalize_session_averages "a" "b" 3 [] [1, 3]).2.2.2 (by simp)⟩

/-- The low-blink-rate threshold of 10 blinks per minute
(main.py line 335). -/
def blinkRateThreshold : ℚ := 10

/-- `MainWindow.check_blink_rate` (main.py lines 325-342), modelled as
the alert decision: timestamps are rationals in seconds, and the result
is whether the low-rate alert fires.  Returns false when not tracking or
no session start is recorded; otherwise computes elapsed minutes, guards
against a non-positive duration, and alerts iff blink_count per elapsed
minute is below the threshold. -/
def checkBlinkRate (tracking : Bool) (sessionStart : Option ℚ) (now : ℚ)
    (blinkCount : Nat) : Bool :=
  match sessionStart with
  | none => false
  | some start =>
    if tracking then
      let sessionDurationMinutes := (now - start) / 60
      if 0 < sessionDurationMinutes then
        if (blinkCount : ℚ) / sessionDurationMinutes < blinkRateThreshold then true
        else false
      else false
    else false

/-- C7: no alert when not tracking, when no session start is recorded,
or when the elapsed time is zero (or negative) — so no division by zero
occurs; when a session is active with positive elapsed time, the alert
fires iff the blinks-per-minute rate is below the threshold; and the
spec's example (2 minutes, 3 blinks, rate 1.5/min) fires the alert. -/
theorem blink_rate_alert_decision (tracking : Bool) (sessionStart : Option ℚ)
    (now : ℚ) (blinkCount : Nat) :
    (tracking = false → checkBlinkRate tracking sessionStart now blinkCount = false) ∧
    (sessionStart = none → checkBlinkRate tracking sessionStart now blinkCount = false) ∧
    (∀ start, sessionStart = some start → now - start ≤ 0 →
      checkBlinkRate tracking sessionStart now blinkCount = false) ∧
    (∀ start, sessionStart = some start → tracking = true → 0 < now - start →
      (checkBlinkRate tracking sessionStart now blinkCount = true ↔
        (blinkCount : ℚ) / ((now - start) / 60) < blinkRateThreshold)) ∧
    checkBlinkRate true (some 0) 120 3 = true := by
  refine ⟨?_, ?_, ?_, ?_, ?_⟩
  · intro h
    cases sessionStart <;> simp [checkBlinkRate, h]
  · intro h
    simp [checkBlinkRate, h]
  · intro start hs hle
    subst hs
    have hnot : ¬(0 < (now - start) / 60) := by
      intro hx
      nlinarith
    cases tracking <;> simp [checkBlinkRate, hnot]
  · intro start hs htr hpos
    subst hs
    subst htr
    have hpos60 : 0 < (now - start) / 60 := by positivity
    by_cases hr : (blinkCount : ℚ) / ((now - start) / 60) < blinkRateThreshold <;>
      simp [checkBlinkRate, hpos60, hr]
  · norm_num [checkBlinkRate, blinkRateThreshold]

/-- Witness for C7 at concrete inputs: zero elapsed time gives no alert,
and at 2 minutes with 3 blinks the alert-iff-low-rate equivalence
evaluates to an alert. -/
theorem blink_rate_alert_decision_witness :
    checkBlinkRate true (some 5) 5 2 = false ∧
    (checkBlinkRate true (some 0) 120 3 = true ↔
      ((3 : Nat) : ℚ) / (((120 : ℚ) - 0) / 60) < blinkRateThreshold) :=
  ⟨(blink_rate_alert_decision true (some 5) 5 2).2.2.1 5 rfl (by norm_num),
   (blink_rate_alert_decision true (some 0) 120 3).2.2.2.1 0 rfl rfl (by norm_num)⟩

/-- The `MainWindow` state touched by tracking control and the periodic
resource sampler (main.py lines 24, 32, 35-37 and the status label):
whether a login token is held, the tracking flag, the UI blink counter,
the session start time (seconds), the per-session CPU and memory sample
lists, and the status-label text. -/
structure AppState where
  has_token : Bool
  tracking : Bool
  blink_count : Nat
  session_start : Option ℚ
  cpu_samples : List ℚ
  mem_samples : List ℚ
  status : String
deriving DecidableEq

/-- `MainWindow.start_tracking` (main.py lines 197-228): returns
immediately if already tracking; asks for login if no token; otherwise
starts a session — sets the flag, resets the blink counter, records the
start time and clears the sample lists.  The Python method raises
nothing and returns no value, so the model is a total state
transformer. -/
def startTracking (st : AppState) (now : ℚ) : AppState :=
  if st.tracking then st
  else if st.has_token = false then { st with status := "Status: Please login first" }
  else
    { st with tracking := true
              status := "Status: Starting webcam tracking..."
              blink_count := 0
              session_start := some now
              cpu_samples := []
              mem_samples := [] }

/-- A concrete state with an active session. -/
def activeState : AppState :=
  ⟨true, true, 7, some 3, [1], [2], "Status: Tracking with webcam"⟩

/-- C8 counterexample: calling `start_tracking` while a session is
active returns with the entire state — blink counter, session start,
samples, even the status text — unchanged, and the method has no error
channel at all (it is a total function into `AppState`): the
invalid-state condition is silently swallowed, not signaled to the
caller. -/
theorem start_while_active_silent_cex :
    startTracking activeState 99 = activeState ∧
    (startTracking activeState 99).status = activeState.status := by
  constructor <;> rfl

/-- C8 (amended): attempting to start a session while one is active is a
silent no-op: the call leaves the application state, including the
active session's data, completely unchanged, and no error is raised or
displayed. -/
theorem start_while_active_noop (st : AppState) (now : ℚ) (h : st.tracking = true) :
    startTracking st now = st := by
  simp [startTracking, h]

/-- Witness for C8's amended theorem at a concrete active state. -/
theorem start_while_active_noop_witness :
    activeState.tracking = true ∧ startTracking activeState 42 = activeState :=
  ⟨rfl, start_while_active_noop activeState 42 rfl⟩

/-- `MainWindow.update_performance_stats` (main.py lines 301-308,
restricted to the state it mutates): appends the tick's CPU and memory
readings to the session's sample lists when tracking, and accumulates
nothing otherwise.  Label updates touch no session or detector state. -/
def updatePerformanceStats (st : AppState) (cpu mem : ℚ) : AppState :=
  if st.tracking then
    { st with cpu_samples := st.cpu_samples ++ [cpu]
              mem_samples := st.mem_samples ++ [mem] }
  else st

/-- C9: a resource-sampling tick while no session is active leaves the
state untouched; while a session is active it appends exactly one CPU
sample and one memory sample and changes nothing else (token, tracking
flag, blink counter, session start, status). -/
theorem perf_tick_frame_effect (st : AppState) (cpu mem : ℚ) :
    (st.tracking = false → updatePerformanceStats st cpu mem = st) ∧
    (st.tracking = true →
      (updatePerformanceStats st cpu mem).cpu_samples = st.cpu_samples ++ [cpu] ∧
      (updatePerformanceStats st cpu mem).mem_samples = st.mem_samples ++ [mem] ∧
      (updatePerformanceStats st cpu mem).has_token = st.has_token ∧
      (updatePerformanceStats st cpu mem).tracking = st.tracking ∧
      (updatePerformanceStats st cpu mem).blink_count = st.blink_count ∧
      (updatePerformanceStats st cpu mem).session_start = st.session_start ∧
      (updatePerformanceStats st cpu mem).status = st.status) := by
  constructor
  · intro h
    simp [updatePerformanceStats, h]
  · intro h
    simp [updatePerformanceStats, h]

/-- Witness for C9 at concrete states: an idle state is untouched and an
active state gets exactly the new samples appended. -/
theorem perf_tick_frame_effect_witness :
    updatePerformanceStats ⟨true, false, 0, none, [], [], "Status: Not tracking"⟩ 5 6
        = ⟨true, false, 0, none, [], [], "Status: Not tracking"⟩ ∧
    (updatePerformanceStats activeState 5 6).cpu_samples = activeState.cpu_samples ++ [5] ∧
    (updatePerformanceStats activeState 5 6).blink_count = activeState.blink_count :=
  ⟨(perf_tick_frame_effect ⟨true, false, 0, none, [], [], "Status: Not tracking"⟩ 5 6).1 rfl,
   ((perf_tick_frame_effect activeState 5 6).2 rfl).1,
   ((perf_tick_frame_effect activeState 5 6).2 rfl).2.2.2.2.1⟩

/-- The persisted buffer file (`blink_buffer.json`) as seen by
`ApiClient._load_buffer`: it may be absent, unreadable (opening or
reading raises), hold text that is not valid JSON (json.load raises), or
hold a valid list of rows. -/
inductive BufferFile where
  | absent
  | unreadable
  | invalidJson
  | valid (rows : List Row)
deriving DecidableEq

/-- `ApiClient._load_buffer` (api_client.py lines 61-68): returns [] if
the file does not exist, returns the parsed rows when reading and
parsing succeed, and catches every exception, returning []. -/
def loadBuffer : BufferFile → List Row
  | .absent => []
  | .unreadable => []
  | .invalidJson => []
  | .valid rows => rows

/-- `ApiClient._save_buffer` (api_client.py lines 70-75): rewrites the
file with the given rows. -/
def saveBuffer (rows : List Row) : BufferFile :=
  .valid rows

/-- `ApiClient.buffer_session` (api_client.py lines 77-88) acting on the
buffer file: load, append the new row, save. -/
def bufferSession (file : BufferFile) (row : Row) : BufferFile :=
  saveBuffer (loadBuffer file ++ [row])

/-- C10: loading the buffer never fails — it is a total function that
returns the parsed rows when the file exists and parses and [] for an
absent, unreadable, or non-JSON file; consequently the next persisting
operation (buffering a session) overwrites a corrupt file with just the
new row, discarding the former contents. -/
theorem load_buffer_total_and_corrupt_discarded :
    (∀ rows, loadBuffer (.valid rows) = rows) ∧
    loadBuffer .absent = [] ∧
    loadBuffer .unreadable = [] ∧
    loadBuffer .invalidJson = [] ∧
    (∀ row, bufferSession .invalidJson row = .valid [row]) ∧
    (∀ row, bufferSession .unreadable row = .valid [row]) ∧
    (∀ row rows, bufferSession (.valid rows) row = .valid (rows ++ [row])) :=
  ⟨fun _ => rfl, rfl, rfl, rfl, fun _ => rfl, fun _ => rfl, fun _ _ => rfl⟩
